import Mathlib

/-!
Shallow embedding of the Sonetra AI Mixer frontend logic.

The definitions below are translated from the TypeScript sources of the
repository:
  * `src/frontend/src/services/api.ts` (base URL selection, request builders),
  * `src/frontend/components/AudioProcessor.tsx` (analysis / transition
    workflows, render lines, button guards),
  * `src/frontend/src/mocks/handlers.ts` (mock service layer),
  * `src/frontend/src/pages/Studio.tsx` (upload list, record removal),
  * the mixing-console page (tracks, `updateTrack`, `resetTrack`).

JavaScript numbers are modelled as rationals (every numeric literal in the
sources is exactly representable); network settlement is modelled as an
explicit `Except` outcome passed to the handler; the pseudo-random id
generator of the Studio page is modelled as an oracle `Nat → String`
supplying the successive outputs of
`Math.random().toString(36).substr(2, 9)`.
-/

/-- A client-side file handle (the fields of a JS `File` the code reads). -/
structure FileHandle where
  name : String
  size : Nat
  content : String
deriving DecidableEq, Repr

/-- A binary payload with its declared MIME type (a JS `Blob`). -/
structure Blob where
  data : String
  mime : String
deriving DecidableEq, Repr

/-- A value appended to a `FormData`: a file part, a string part, or a
numeric part (the code stringifies numbers; we keep the number itself,
since no claim depends on its decimal rendering). -/
inductive FormValue where
  | file : FileHandle → FormValue
  | text : String → FormValue
  | num : ℚ → FormValue
deriving DecidableEq, Repr

/-- The `AudioAnalysis` interface shared by `api.ts` and
`AudioProcessor.tsx`. -/
structure AudioAnalysis where
  beats : List ℚ
  key : String
  scale : String
  tempo : ℚ
  energy : ℚ
  spectral_centroid : ℚ
deriving DecidableEq, Repr

/-- The ways a request can settle unsuccessfully: transport failure,
a non-2xx HTTP status (axios rejects those), or any other exception
thrown while building or sending the request.  The catch blocks in the
sources treat all of them alike. -/
inductive RequestError where
  | network : RequestError
  | httpStatus : Nat → RequestError
  | exception : RequestError
deriving DecidableEq, Repr

/-- Axios settlement of a response: statuses in [200, 300) resolve with the
body, every other status rejects (axios default `validateStatus`). -/
def axiosSettle {α : Type} (status : Nat) (body : α) : Except RequestError α :=
  if 200 ≤ status ∧ status < 300 then Except.ok body
  else Except.error (RequestError.httpStatus status)

/-- `Number.prototype.toFixed(1)` for the nonnegative magnitudes used by the
sources: the tenths digit of `q` after rounding to the nearest tenth
(the integer computed is `⌊q * 10 + 1/2⌋`, written on the numerator and
denominator of `q`). -/
def toFixed1 (q : ℚ) : String :=
  let n : Nat := ((20 * q.num + q.den) / (2 * (q.den : Int))).toNat
  toString (n / 10) ++ "." ++ toString (n % 10)

/-- `Number.prototype.toFixed(2)` for the nonnegative magnitudes used by the
sources (round to nearest hundredth, two digits after the point). -/
def toFixed2 (q : ℚ) : String :=
  let n : Nat := ((200 * q.num + q.den) / (2 * (q.den : Int))).toNat
  let frac := n % 100
  toString (n / 100) ++ "." ++
    (if frac < 10 then "0" ++ toString frac else toString frac)

/-! ## `services/api.ts` -/

/-- `API_BASE_URL = process.env.REACT_APP_BACKEND_URL || 'http://localhost:8000'`.
The argument is the optional value of the environment variable; the JS `||`
also falls through on an empty string. -/
def apiBaseUrl (env : Option String) : String :=
  match env with
  | some s => if s = "" then "http://localhost:8000" else s
  | none => "http://localhost:8000"

/-- Full URL of `analyzeTrack`'s request (`api.post('/api/analyze/track', …)`
against the configured base URL). -/
def analyzeTrackUrl (env : Option String) : String :=
  apiBaseUrl env ++ "/api/analyze/track"

/-- Full URL of `createTransition`'s request. -/
def createTransitionUrl (env : Option String) : String :=
  apiBaseUrl env ++ "/api/transition/create"

/-- Full URL of `transferStyle`'s request. -/
def transferStyleUrl (env : Option String) : String :=
  apiBaseUrl env ++ "/api/style/transfer"

/-- The `TransitionSettings` interface of `api.ts`. -/
structure TransitionSettings where
  style : String
  duration : Option ℚ := none
  crossfade : Option ℚ := none
deriving DecidableEq, Repr

/-- The multipart fields built by `createTransition` in `api.ts`:
`file1`, `file2`, `style` always; `duration` is appended under
`if (settings.duration)`, i.e. only when the value is present and truthy
(a provided `0` is falsy and skipped). -/
def createTransitionFormData (f1 f2 : FileHandle)
    (settings : TransitionSettings) : List (String × FormValue) :=
  [("file1", FormValue.file f1), ("file2", FormValue.file f2),
   ("style", FormValue.text settings.style)] ++
    (match settings.duration with
     | some d => if d ≠ 0 then [("duration", FormValue.num d)] else []
     | none => [])

/-- Drops everything up to and including the first `://` of a character
list (helper for `urlHost`). -/
def afterScheme : List Char → List Char
  | ':' :: '/' :: '/' :: rest => rest
  | _ :: rest => afterScheme rest
  | [] => []

/-- Keeps the characters before the first `/` (helper for `urlHost`). -/
def upToSlash : List Char → List Char
  | [] => []
  | '/' :: _ => []
  | c :: rest => c :: upToSlash rest

/-- Extracts the host part of a URL: the text between `://` and the next
slash. -/
def urlHost (u : String) : String :=
  String.mk (upToSlash (afterScheme u.data))

/-! ## `components/AudioProcessor.tsx` -/

/-- The React state of `AudioProcessor`, together with the observable
side effects of its handlers (waveform beat markers, the blob loaded into
the waveform widget, triggered downloads). -/
structure APState where
  file1 : Option FileHandle
  file2 : Option FileHandle
  analysis : Option AudioAnalysis
  transitionStyle : String
  loading : Bool
  error : Option String
  isPlaying : Bool
  volume : ℚ
  markers : List ℚ
  loadedBlob : Option Blob
  downloads : List String
deriving DecidableEq, Repr

/-- An HTTP request as issued by the client: its URL and multipart fields. -/
structure HttpRequest where
  url : String
  fields : List (String × FormValue)
deriving DecidableEq, Repr

/-- The writes `handleAnalyze` performs before awaiting the request:
`setLoading(true); setError(null)`. -/
def analyzeStart (s : APState) : APState :=
  { s with loading := true, error := none }

/-- Settlement of the analysis request: on success the result is stored and
one beat marker is added per returned beat; on any error the fixed message
is stored; either way the `finally` clears the loading flag. -/
def analyzeSettle (s : APState) (resp : Except RequestError AudioAnalysis) :
    APState :=
  match resp with
  | Except.ok a =>
      { s with analysis := some a, markers := s.markers ++ a.beats,
               loading := false }
  | Except.error _ =>
      { s with error := some "Failed to analyze audio", loading := false }

/-- `handleAnalyze`: returns the new state and the request issued (none when
the `if (!file1) return` guard fires).  The URL is the literal
`http://localhost:8000/analyze/track` from the source. -/
def handleAnalyze (s : APState) (resp : Except RequestError AudioAnalysis) :
    APState × Option HttpRequest :=
  match s.file1 with
  | none => (s, none)
  | some f =>
      (analyzeSettle (analyzeStart s) resp,
       some { url := "http://localhost:8000/analyze/track",
              fields := [("file", FormValue.file f)] })

/-- The writes `handleCreateTransition` performs before awaiting the
request. -/
def transitionStart (s : APState) : APState :=
  { s with loading := true, error := none }

/-- Settlement of the transition request: on success the blob is loaded into
the waveform widget and a download of `transition.wav` is triggered; on any
error the fixed message is stored; the `finally` clears the loading flag. -/
def transitionSettle (s : APState) (resp : Except RequestError Blob) :
    APState :=
  match resp with
  | Except.ok b =>
      { s with loadedBlob := some b,
               downloads := s.downloads ++ ["transition.wav"],
               loading := false }
  | Except.error _ =>
      { s with error := some "Failed to create transition", loading := false }

/-- `handleCreateTransition`: returns the new state and the request issued
(none when the `if (!file1 || !file2) return` guard fires).  The fields are
`file1`, `file2`, `style`; the URL is the literal
`http://localhost:8000/transition/create` from the source. -/
def handleCreateTransition (s : APState) (resp : Except RequestError Blob) :
    APState × Option HttpRequest :=
  match s.file1, s.file2 with
  | some f1, some f2 =>
      (transitionSettle (transitionStart s) resp,
       some { url := "http://localhost:8000/transition/create",
              fields := [("file1", FormValue.file f1),
                         ("file2", FormValue.file f2),
                         ("style", FormValue.text s.transitionStyle)] })
  | _, _ => (s, none)

/-- `disabled={!file1 || !file2 || loading}` on the Create Transition
button. -/
def transitionButtonDisabled (s : APState) : Bool :=
  s.file1.isNone || s.file2.isNone || s.loading

/-- `disabled={!file1 || loading}` on the Analyze Track button. -/
def analyzeButtonDisabled (s : APState) : Bool :=
  s.file1.isNone || s.loading

/-- The key line rendered when an analysis is present:
`Key: {analysis.key} {analysis.scale}`. -/
def displayedKeyLine (s : APState) : Option String :=
  s.analysis.map (fun a => "Key: " ++ a.key ++ " " ++ a.scale)

/-- The tempo line rendered when an analysis is present:
`Tempo: {analysis.tempo.toFixed(1)} BPM`. -/
def displayedTempoLine (s : APState) : Option String :=
  s.analysis.map (fun a => "Tempo: " ++ toFixed1 a.tempo ++ " BPM")

/-- The error text rendered when `error` is set. -/
def displayedErrorText (s : APState) : Option String :=
  s.error

/-- Whether the Analysis Results block (`{analysis && …}`) is rendered. -/
def analysisFieldsDisplayed (s : APState) : Bool :=
  s.analysis.isSome

/-! ## `mocks/handlers.ts` -/

/-- The canned payload of the mock `POST /analyze/track` handler. -/
def mockAnalysisPayload : AudioAnalysis :=
  { beats := [1/2, 1, 3/2, 2], key := "C", scale := "major",
    tempo := 120, energy := 4/5, spectral_centroid := 2000 }

/-- The mock analyze handler answers with status 200. -/
def mockAnalyzeStatus : Nat := 200

/-- The canned blob of the mock `POST /transition/create` handler. -/
def mockTransitionBlob : Blob :=
  { data := "mock audio data", mime := "audio/wav" }

/-- The mock transition handler answers with status 200. -/
def mockTransitionStatus : Nat := 200

/-! ## `pages/Studio.tsx` -/

/-- The `AudioFile` record of the Studio page:
`{ id, file, name: file.name, size: (file.size/(1024*1024)).toFixed(2)+' MB' }`. -/
structure AudioFile where
  id : String
  file : FileHandle
  name : String
  size : String
deriving DecidableEq, Repr

/-- The record built for a dropped file, given the id produced by the
pseudo-random generator. -/
def mkAudioFile (id : String) (f : FileHandle) : AudioFile :=
  { id := id, file := f, name := f.name,
    size := toFixed2 ((f.size : ℚ) / (1024 * 1024)) ++ " MB" }

/-- `onDrop`: for each accepted file, one record is built (its id is the
next output of the random generator, modelled by the oracle `gen`) and
appended to the list with a functional state update. -/
def onDrop (gen : Nat → String) (acceptedFiles : List FileHandle)
    (prev : List AudioFile) : List AudioFile :=
  prev ++ acceptedFiles.enum.map (fun p => mkAudioFile (gen p.1) p.2)

/-- The Studio page state touched by `removeFile`. -/
structure StudioState where
  audioFiles : List AudioFile
  isPlaying : Bool
  currentFile : Option AudioFile
deriving DecidableEq, Repr

/-- `removeFile`: filters the record with the given id out of the list and,
when the removed record is the current playback selection
(`currentFile?.id === id`), clears the selection and stops playback. -/
def removeFile (id : String) (s : StudioState) : StudioState :=
  let filtered := s.audioFiles.filter (fun f => !(f.id == id))
  if s.currentFile.map (fun f => f.id) = some id then
    { s with audioFiles := filtered, currentFile := none, isPlaying := false }
  else
    { s with audioFiles := filtered }

/-! ## The mixing-console page -/

/-- The three-band EQ of a track. -/
structure TrackEQ where
  low : ℚ
  mid : ℚ
  high : ℚ
deriving DecidableEq, Repr

/-- The effect sends of a track. -/
structure TrackEffects where
  reverb : ℚ
  delay : ℚ
  compression : ℚ
deriving DecidableEq, Repr

/-- The `Track` interface of the mixing console. -/
structure Track where
  id : String
  name : String
  color : String
  volume : ℚ
  pan : ℚ
  muted : Bool
  solo : Bool
  eq : TrackEQ
  effects : TrackEffects
deriving DecidableEq, Repr

/-- `updateTrack`: maps over the list, merging the updates into the track
with the matching id (`{...track, ...updates}`) and leaving every other
track unchanged. -/
def updateTrack (id : String) (updates : Track → Track)
    (tracks : List Track) : List Track :=
  tracks.map (fun track => if track.id = id then updates track else track)

/-- `resetTrack`: updates the matching track with volume 75, pan 0, all EQ
bands 0 and all effect sends 0. -/
def resetTrack (id : String) (tracks : List Track) : List Track :=
  updateTrack id
    (fun t =>
      { t with volume := 75, pan := 0,
               eq := { low := 0, mid := 0, high := 0 },
               effects := { reverb := 0, delay := 0, compression := 0 } })
    tracks

/-! ## Sample values and helper lemmas -/

/-- A concrete file for witnesses. -/
def sampleFile : FileHandle :=
  { name := "test.wav", size := 13, content := "audio content" }

/-- A second concrete file for witnesses. -/
def sampleFile2 : FileHandle :=
  { name := "test2.wav", size := 6, content := "other" }

/-- The initial `useState` values of `AudioProcessor`. -/
def apInitialState : APState :=
  { file1 := none, file2 := none, analysis := none,
    transitionStyle := "smooth", loading := false, error := none,
    isPlaying := false, volume := 1, markers := [], loadedBlob := none,
    downloads := [] }

lemma enum_map_snd_comp {α β : Type} (l : List α) (g : α → β) :
    l.enum.map (fun p => g p.2) = l.map g := by
  have : (fun p : Nat × α => g p.2) = g ∘ Prod.snd := rfl
  rw [this, ← List.map_map, List.enum_map_snd]

lemma enum_map_fst_comp {α β : Type} (l : List α) (g : Nat → β) :
    l.enum.map (fun p => g p.1) = (List.range l.length).map g := by
  have : (fun p : Nat × α => g p.1) = g ∘ Prod.fst := rfl
  rw [this, ← List.map_map, List.enum_map_fst]

/-! ## Claims about the analysis workflow -/

/-- Claim C3: on any error during the analysis workflow (transport failure,
non-2xx status, or any other exception), the handler sets the user-facing
error to exactly "Failed to analyze audio" and leaves all prior state — the
stored analysis and the selected files in particular — unchanged; starting
with no stored analysis, the error text is displayed and no analysis fields
are displayed. -/
theorem analyze_error_fixed_message (s : APState) (f : FileHandle)
    (e : RequestError) (h : s.file1 = some f) :
    (handleAnalyze s (Except.error e)).1 =
      { s with error := some "Failed to analyze audio", loading := false } ∧
    (s.analysis = none →
      analysisFieldsDisplayed (handleAnalyze s (Except.error e)).1 = false ∧
      displayedErrorText (handleAnalyze s (Except.error e)).1 =
        some "Failed to analyze audio") := by
  have hr : (handleAnalyze s (Except.error e)).1 =
      { s with error := some "Failed to analyze audio", loading := false } := by
    simp [handleAnalyze, h, analyzeStart, analyzeSettle]
  refine ⟨hr, fun h2 => ?_⟩
  rw [hr] at *
  simp [analysisFieldsDisplayed, displayedErrorText, h2]

/-- Witness for C3: a 500 response on the initial state with one selected
file yields the fixed error text and no displayed analysis fields. -/
theorem analyze_error_fixed_message_witness :
    ((handleAnalyze { apInitialState with file1 := some sampleFile }
        (Except.error (RequestError.httpStatus 500))).1).error =
      some "Failed to analyze audio" ∧
    analysisFieldsDisplayed
      (handleAnalyze { apInitialState with file1 := some sampleFile }
        (Except.error (RequestError.httpStatus 500))).1 = false := by
  have h := analyze_error_fixed_message
    { apInitialState with file1 := some sampleFile } sampleFile
    (RequestError.httpStatus 500) rfl
  exact ⟨by rw [h.1], (h.2 rfl).1⟩

/-- Claim C4: when the mock service layer answers the analysis endpoint
(status 200 with the fixed payload), a successful run of the analysis
workflow stores that payload and renders the tempo line as exactly
"Tempo: 120.0 BPM" and the key line as exactly "Key: C major". -/
theorem mock_analysis_renders_tempo_and_key (s : APState) (f : FileHandle)
    (h : s.file1 = some f) :
    ((handleAnalyze s (axiosSettle mockAnalyzeStatus mockAnalysisPayload)).1).analysis
      = some mockAnalysisPayload ∧
    displayedTempoLine
      (handleAnalyze s (axiosSettle mockAnalyzeStatus mockAnalysisPayload)).1
      = some "Tempo: 120.0 BPM" ∧
    displayedKeyLine
      (handleAnalyze s (axiosSettle mockAnalyzeStatus mockAnalysisPayload)).1
      = some "Key: C major" := by
  have hs : axiosSettle mockAnalyzeStatus mockAnalysisPayload =
      Except.ok mockAnalysisPayload := by
    simp [axiosSettle, mockAnalyzeStatus]
  rw [hs]
  have hr : ((handleAnalyze s (Except.ok mockAnalysisPayload)).1).analysis =
      some mockAnalysisPayload := by
    simp [handleAnalyze, h, analyzeStart, analyzeSettle]
  refine ⟨hr, ?_, ?_⟩
  · rw [displayedTempoLine, hr]
    have : toFixed1 mockAnalysisPayload.tempo = "120.0" := by decide
    simp [this]
  · rw [displayedKeyLine, hr]
    simp [mockAnalysisPayload]

/-- Witness for C4: from the initial state with one selected file, the mock
response renders the two lines. -/
theorem mock_analysis_renders_tempo_and_key_witness :
    displayedTempoLine
      (handleAnalyze { apInitialState with file1 := some sampleFile }
        (axiosSettle mockAnalyzeStatus mockAnalysisPayload)).1
      = some "Tempo: 120.0 BPM" ∧
    displayedKeyLine
      (handleAnalyze { apInitialState with file1 := some sampleFile }
        (axiosSettle mockAnalyzeStatus mockAnalysisPayload)).1
      = some "Key: C major" := by
  have h := mock_analysis_renders_tempo_and_key
    { apInitialState with file1 := some sampleFile } sampleFile rfl
  exact ⟨h.2.1, h.2.2⟩

/-- Claim C5: whenever fewer than two files are selected, the Create
Transition button is disabled, and the handler — even if entered — issues
no request and returns the state unchanged. -/
theorem transition_noninvocable_without_two_files (s : APState)
    (resp : Except RequestError Blob)
    (h : s.file1.isNone ∨ s.file2.isNone) :
    transitionButtonDisabled s = true ∧
    handleCreateTransition s resp = (s, none) := by
  rcases h with h | h
  · have h1 : s.file1 = none := Option.isNone_iff_eq_none.mp h
    exact ⟨by simp [transitionButtonDisabled, h1],
           by simp [handleCreateTransition, h1]⟩
  · have h2 : s.file2 = none := Option.isNone_iff_eq_none.mp h
    refine ⟨by simp [transitionButtonDisabled, h2], ?_⟩
    cases hf : s.file1 <;> simp [handleCreateTransition, hf, h2]

/-- Witness for C5: with only the first file selected, the button is
disabled and the handler is a no-op that issues nothing. -/
theorem transition_noninvocable_without_two_files_witness :
    transitionButtonDisabled
      { apInitialState with file1 := some sampleFile } = true ∧
    handleCreateTransition { apInitialState with file1 := some sampleFile }
      (Except.ok mockTransitionBlob) =
      ({ apInitialState with file1 := some sampleFile }, none) :=
  transition_noninvocable_without_two_files
    { apInitialState with file1 := some sampleFile }
    (Except.ok mockTransitionBlob) (Or.inr rfl)

/-- Claim C8: both workflows drive the shared loading flag through
Loading and back: entering the workflow (past its guard) first sets the
flag, the run is exactly that start followed by the settlement of the one
request, and after settlement — success or failure — the flag is false. -/
theorem loading_flag_lifecycle (s : APState)
    (r1 : Except RequestError AudioAnalysis)
    (r2 : Except RequestError Blob) :
    (analyzeStart s).loading = true ∧
    (transitionStart s).loading = true ∧
    (s.file1.isSome →
      (handleAnalyze s r1).1 = analyzeSettle (analyzeStart s) r1 ∧
      ((handleAnalyze s r1).1).loading = false) ∧
    (s.file1.isSome → s.file2.isSome →
      (handleCreateTransition s r2).1 = transitionSettle (transitionStart s) r2 ∧
      ((handleCreateTransition s r2).1).loading = false) := by
  refine ⟨rfl, rfl, fun h1 => ?_, fun h1 h2 => ?_⟩
  · obtain ⟨f, hf⟩ := Option.isSome_iff_exists.mp h1
    have he : (handleAnalyze s r1).1 = analyzeSettle (analyzeStart s) r1 := by
      simp [handleAnalyze, hf]
    refine ⟨he, ?_⟩
    rw [he]
    cases r1 <;> simp [analyzeSettle]
  · obtain ⟨f, hf⟩ := Option.isSome_iff_exists.mp h1
    obtain ⟨g, hg⟩ := Option.isSome_iff_exists.mp h2
    have he : (handleCreateTransition s r2).1 =
        transitionSettle (transitionStart s) r2 := by
      simp [handleCreateTransition, hf, hg]
    refine ⟨he, ?_⟩
    rw [he]
    cases r2 <;> simp [transitionSettle]

/-- Witness for C8: with two selected files, both workflows come back with
the loading flag cleared, on a success and on a failure alike. -/
theorem loading_flag_lifecycle_witness :
    ((handleAnalyze
      { apInitialState with file1 := some sampleFile, file2 := some sampleFile2 }
      (Except.error RequestError.network)).1).loading = false ∧
    ((handleCreateTransition
      { apInitialState with file1 := some sampleFile, file2 := some sampleFile2 }
      (Except.ok mockTransitionBlob)).1).loading = false := by
  have h := loading_flag_lifecycle
    { apInitialState with file1 := some sampleFile, file2 := some sampleFile2 }
    (Except.error RequestError.network) (Except.ok mockTransitionBlob)
  exact ⟨(h.2.2.1 rfl).2, (h.2.2.2 rfl rfl).2⟩

/-! ## Claims about request URLs and fields -/

/-- Counterexample to claim C1: with the environment variable set to
`http://prod.example.com`, the env-selected host is `prod.example.com`,
yet the analysis request the `AudioProcessor` component issues (its URL is
a string literal — `handleAnalyze` does not even take the environment as
an input) still targets host `localhost:8000`. -/
theorem hardcoded_component_host_ignores_env :
    ((handleAnalyze { apInitialState with file1 := some sampleFile }
        (Except.error RequestError.network)).2.map (fun r => urlHost r.url))
      = some "localhost:8000" ∧
    urlHost (apiBaseUrl (some "http://prod.example.com"))
      = "prod.example.com" ∧
    ("localhost:8000" : String) ≠ "prod.example.com" := by
  refine ⟨rfl, rfl, by decide⟩

/-- Amended claim C1: requests issued through the `api.ts` service module
(`analyzeTrack`, `createTransition`, `transferStyle`) target the base URL
selected by the environment variable, which defaults to
`http://localhost:8000` when the variable is unset (or empty); but the
`AudioProcessor` component's analysis and transition requests carry URLs
with the host fixed to `localhost:8000` independently of that variable. -/
theorem base_url_selects_service_host (env : Option String) :
    analyzeTrackUrl env = apiBaseUrl env ++ "/api/analyze/track" ∧
    createTransitionUrl env = apiBaseUrl env ++ "/api/transition/create" ∧
    transferStyleUrl env = apiBaseUrl env ++ "/api/style/transfer" ∧
    apiBaseUrl none = "http://localhost:8000" ∧
    apiBaseUrl (some "") = "http://localhost:8000" ∧
    (∀ s resp req, (handleAnalyze s resp).2 = some req →
      req.url = "http://localhost:8000/analyze/track") ∧
    (∀ s resp req, (handleCreateTransition s resp).2 = some req →
      req.url = "http://localhost:8000/transition/create") := by
  refine ⟨rfl, rfl, rfl, rfl, rfl, ?_, ?_⟩
  · intro s resp req h
    cases hf : s.file1 <;> simp [handleAnalyze, hf] at h
    rw [← h]
  · intro s resp req h
    cases hf : s.file1 <;> cases hg : s.file2 <;>
      simp [handleCreateTransition, hf, hg] at h
    rw [← h]

/-- Witness for the amended C1: the default base URL, and the fixed URL of
a concrete request issued by the component. -/
theorem base_url_selects_service_host_witness :
    apiBaseUrl none = "http://localhost:8000" ∧
    HttpRequest.url
      { url := "http://localhost:8000/analyze/track",
        fields := [("file", FormValue.file sampleFile)] } =
      "http://localhost:8000/analyze/track" := by
  have h := base_url_selects_service_host none
  exact ⟨h.2.2.2.1,
    h.2.2.2.2.2.1 { apInitialState with file1 := some sampleFile }
      (Except.error RequestError.network)
      { url := "http://localhost:8000/analyze/track",
        fields := [("file", FormValue.file sampleFile)] } rfl⟩

/-- Counterexample to claim C9: with settings that do provide a duration
value, namely `0`, the built request carries no `duration` field — the
source guards the append with JS truthiness (`if (settings.duration)`),
which treats `0` as absent. -/
theorem duration_zero_field_dropped :
    (createTransitionFormData sampleFile sampleFile2
        { style := "smooth", duration := some 0 }).map Prod.fst
      = ["file1", "file2", "style"] ∧
    "duration" ∉
      (createTransitionFormData sampleFile sampleFile2
        { style := "smooth", duration := some 0 }).map Prod.fst := by
  constructor
  · simp [createTransitionFormData]
  · simp [createTransitionFormData]

/-- Amended claim C9: the transition-creation request of the service module
carries exactly the multipart fields `file1`, `file2`, `style`, plus
`duration` exactly when a duration value is provided and is truthy
(nonzero); a provided duration of `0` is dropped. -/
theorem transition_fields_exactly (f1 f2 : FileHandle)
    (settings : TransitionSettings) :
    (createTransitionFormData f1 f2 settings).map Prod.fst =
      "file1" :: "file2" :: "style" ::
        (match settings.duration with
         | some d => if d ≠ 0 then ["duration"] else []
         | none => []) ∧
    ("duration" ∈ (createTransitionFormData f1 f2 settings).map Prod.fst ↔
      ∃ d, settings.duration = some d ∧ d ≠ 0) := by
  constructor
  · cases hd : settings.duration with
    | none => simp [createTransitionFormData, hd]
    | some d =>
        by_cases h0 : d = 0 <;> simp [createTransitionFormData, hd, h0]
  · cases hd : settings.duration with
    | none => simp [createTransitionFormData, hd]
    | some d =>
        by_cases h0 : d = 0 <;> simp [createTransitionFormData, hd, h0]

/-! ## Claims about the Studio file list -/

/-- Claim C6: every accepted drop appends exactly one record per dropped
file at the end of the list, each with display name equal to the source
file's name, leaving all prior records unchanged and in order. -/
theorem drop_appends_one_record_per_file (gen : Nat → String)
    (acceptedFiles : List FileHandle) (prev : List AudioFile) :
    (onDrop gen acceptedFiles prev).length =
      prev.length + acceptedFiles.length ∧
    (onDrop gen acceptedFiles prev).take prev.length = prev ∧
    ((onDrop gen acceptedFiles prev).drop prev.length).map (fun r => r.name)
      = acceptedFiles.map (fun f => f.name) := by
  refine ⟨by simp [onDrop], ?_, ?_⟩
  · rw [onDrop, List.take_left]
  · rw [onDrop, List.drop_left, List.map_map]
    have : ((fun r : AudioFile => r.name) ∘
        fun p : Nat × FileHandle => mkAudioFile (gen p.1) p.2) =
        fun p : Nat × FileHandle => p.2.name := rfl
    rw [this, enum_map_snd_comp]

/-- Counterexample to claim C2: the record identifiers are successive
outputs of `Math.random().toString(36).substr(2, 9)`, which carries no
distinctness guarantee; on a random stream that repeats an output, two
uploads of the same file both enter the list (no dedup) but their
identifiers coincide. -/
theorem duplicate_random_ids_possible :
    (onDrop (fun _ => "q3k9z7m1p") [sampleFile, sampleFile] []).length = 2 ∧
    ((onDrop (fun _ => "q3k9z7m1p") [sampleFile, sampleFile] []).map
        (fun r => r.id)) = ["q3k9z7m1p", "q3k9z7m1p"] ∧
    ¬ ((onDrop (fun _ => "q3k9z7m1p") [sampleFile, sampleFile] []).map
        (fun r => r.id)).Nodup := by
  refine ⟨rfl, rfl, ?_⟩
  intro h
  rw [show ((onDrop (fun _ => "q3k9z7m1p") [sampleFile, sampleFile] []).map
      (fun r => r.id)) = ["q3k9z7m1p", "q3k9z7m1p"] from rfl] at h
  simp [List.Nodup] at h

/-- Amended claim C2: every upload — repeated identical files included —
appends its own independent record (no deduplication ever merges or
rejects a record, and prior records are untouched), and the new records'
identifiers are exactly the successive outputs of the pseudo-random
generator; they are therefore pairwise distinct exactly when those
generator outputs together with the existing identifiers are, which the
generator does not guarantee. -/
theorem uploads_append_independent_records (gen : Nat → String)
    (acceptedFiles : List FileHandle) (prev : List AudioFile) :
    (onDrop gen acceptedFiles prev).length =
      prev.length + acceptedFiles.length ∧
    (onDrop gen acceptedFiles prev).take prev.length = prev ∧
    (onDrop gen acceptedFiles prev).map (fun r => r.id) =
      prev.map (fun r => r.id) ++
        (List.range acceptedFiles.length).map gen := by
  refine ⟨by simp [onDrop], by rw [onDrop, List.take_left], ?_⟩
  rw [onDrop, List.map_append, List.map_map]
  have : ((fun r : AudioFile => r.id) ∘
      fun p : Nat × FileHandle => mkAudioFile (gen p.1) p.2) =
      fun p : Nat × FileHandle => gen p.1 := rfl
  rw [this, enum_map_fst_comp]

/-- Claim C7: removing a record by identifier removes it from the list
(other records stay, in order); when the removed record is the active
playback selection, playback is halted and the selection cleared;
otherwise selection and playback flag are unchanged. -/
theorem remove_record_semantics (s : StudioState) (id : String) :
    (∀ f, f ∈ (removeFile id s).audioFiles → f.id ≠ id) ∧
    (removeFile id s).audioFiles.Sublist s.audioFiles ∧
    (∀ f, f ∈ s.audioFiles → f.id ≠ id → f ∈ (removeFile id s).audioFiles) ∧
    (∀ cf, s.currentFile = some cf → cf.id = id →
      (removeFile id s).currentFile = none ∧
      (removeFile id s).isPlaying = false) ∧
    (s.currentFile.map (fun f => f.id) ≠ some id →
      (removeFile id s).currentFile = s.currentFile ∧
      (removeFile id s).isPlaying = s.isPlaying) := by
  have hfiles : (removeFile id s).audioFiles =
      s.audioFiles.filter (fun f => !(f.id == id)) := by
    rw [removeFile]
    split <;> rfl
  refine ⟨?_, ?_, ?_, ?_, ?_⟩
  · intro f hf
    rw [hfiles] at hf
    have := List.of_mem_filter hf
    simpa using this
  · rw [hfiles]
    exact List.filter_sublist s.audioFiles
  · intro f hf hne
    rw [hfiles]
    exact List.mem_filter_of_mem hf (by simpa using hne)
  · intro cf hcf hid
    constructor <;> simp [removeFile, hcf, hid]
  · intro hne
    constructor <;> simp [removeFile, hne]

/-- Witness for C7: removing the active record from a one-record Studio
state empties the list, clears the selection and stops playback. -/
theorem remove_record_semantics_witness :
    (removeFile "q3k9z7m1p"
      { audioFiles := [mkAudioFile "q3k9z7m1p" sampleFile],
        isPlaying := true,
        currentFile := some (mkAudioFile "q3k9z7m1p" sampleFile) }).currentFile
      = none ∧
    (removeFile "q3k9z7m1p"
      { audioFiles := [mkAudioFile "q3k9z7m1p" sampleFile],
        isPlaying := true,
        currentFile := some (mkAudioFile "q3k9z7m1p" sampleFile) }).isPlaying
      = false := by
  have h := remove_record_semantics
    { audioFiles := [mkAudioFile "q3k9z7m1p" sampleFile],
      isPlaying := true,
      currentFile := some (mkAudioFile "q3k9z7m1p" sampleFile) } "q3k9z7m1p"
  exact h.2.2.2.1 (mkAudioFile "q3k9z7m1p" sampleFile) rfl rfl

/-! ## Claim about the mixing console -/

/-- Claim C10: resetting a track sets that track's volume to 75, pan to 0,
all three EQ bands to 0 and all three effect levels to 0, while leaving its
identifier, name, color, muted flag and solo flag unchanged (visible in the
record update below, which touches no other field), and leaving every other
track, the list's length and its order unchanged. -/
theorem reset_track_fields (tracks : List Track) (id : String) (i : Nat) :
    (resetTrack id tracks).length = tracks.length ∧
    (resetTrack id tracks).map (fun t => t.id) =
      tracks.map (fun t => t.id) ∧
    (resetTrack id tracks)[i]? = (tracks[i]?).map (fun t =>
      if t.id = id then
        { t with volume := 75, pan := 0,
                 eq := { low := 0, mid := 0, high := 0 },
                 effects := { reverb := 0, delay := 0, compression := 0 } }
      else t) := by
  refine ⟨by simp [resetTrack, updateTrack], ?_, ?_⟩
  · rw [resetTrack, updateTrack, List.map_map]
    refine List.map_congr_left ?_
    intro t _
    by_cases h : t.id = id <;> simp [h]
  · rw [resetTrack, updateTrack, List.getElem?_map]
